import Mathlib

set_option maxRecDepth 4096

/-!
Shallow embedding of the market-segment generator of the mortgage-scraper
repository (src/mortgage_scraper/segment.py) and of the URL-generation entry
point of the SBAB scraper (src/mortgage_scraper/sbab_banken_scraper.py,
SBABScraper.generate_scrape_urls), together with theorems settling the
specification claims about them.

Numbers are modelled as exact rationals (ℚ): the Python code computes with
IEEE doubles (and NumPy float64), so every arithmetic identity proved here is
the exact-arithmetic content of the corresponding floating-point computation.
-/

namespace MortgageScraper

/-- Python runtime errors relevant to this component.  `zeroDivisionError`
models Python's built-in `ZeroDivisionError`; `invalidConfiguration` models
the `InvalidConfiguration` error kind named by the specification (no such
error exists anywhere in the source). -/
inductive PyError where
  | zeroDivisionError
  | invalidConfiguration
deriving DecidableEq, Repr

/-- `MortgageMarketSegment` (src/mortgage_scraper/segment.py, lines 8-20):
a dataclass with fields `asset_value`, `loan_amount`, an optional `period`
and an optional `ltv` (filled in by `__post_init__`). -/
structure MortgageMarketSegment where
  asset_value : ℚ
  loan_amount : ℚ
  period : Option String := none
  ltv : Option ℚ := none
deriving DecidableEq, Repr

/-- `MortgageMarketSegment.__post_init__` run on dataclass construction:
`self.ltv = self.loan_amount / self.asset_value`.  With Python numbers the
division raises `ZeroDivisionError` when `asset_value` is zero; otherwise the
segment is produced with `ltv` set to the quotient, discarding whatever `ltv`
value the caller passed to the constructor. -/
def MortgageMarketSegment.construct (asset_value loan_amount : ℚ)
    (period : Option String) (_ltvArg : Option ℚ) :
    Except PyError MortgageMarketSegment :=
  if asset_value = 0 then
    Except.error PyError.zeroDivisionError
  else
    Except.ok { asset_value := asset_value, loan_amount := loan_amount,
                period := period, ltv := some (loan_amount / asset_value) }

/-- Total variant of dataclass construction used inside the generator, in
exact rational arithmetic: the produced segment carries
`ltv = loan_amount / asset_value` (the `__post_init__` assignment).  `ltvArg`
is omitted because the generator never passes one. -/
def MortgageMarketSegment.create (asset_value loan_amount : ℚ)
    (period : Option String) : MortgageMarketSegment :=
  { asset_value := asset_value, loan_amount := loan_amount,
    period := period, ltv := some (loan_amount / asset_value) }

/-- Ceiling of a rational, computed through `Rat.floor` so that it reduces
by evaluation. -/
def ratCeil (q : ℚ) : ℤ :=
  -Rat.floor (-q)

/-- `np.arange(start, stop, step)` for a non-zero `step`, in exact
arithmetic: the arithmetic progression `start, start + step, ...` of length
`max 0 ⌈(stop - start) / step⌉`. -/
def np_arange (start stop step : ℚ) : List ℚ :=
  (List.range (ratCeil ((stop - start) / step)).toNat).map
    (fun (i : ℕ) => start + (i : ℚ) * step)

/-- `DEFAULT_LOAN_VOLUME_BINS` (src/mortgage_scraper/segment.py, lines
23-27): concatenation of three half-open arithmetic progressions. -/
def DEFAULT_LOAN_VOLUME_BINS : List ℚ :=
  np_arange 50000 2000000 50000
    ++ np_arange 2000000 5000000 100000
    ++ np_arange 5000000 10000000 250000

/-- The fields of `ScraperConfig` (src/mortgage_scraper/scraper_config.py)
consumed by `generate_segments` and `SBABScraper.generate_scrape_urls`, with
their source defaults.  `custom_loan_volume_bins` is a `List ℤ` because the
Python field is `Optional[List[int]]` with default `[]`; `None` and `[]` are
both falsy, so the empty list models both.  `seed` is `Option ℤ` because the
scraper guards on `config.seed is not None`. -/
structure ScraperConfig where
  custom_ltv_granularity : Option ℚ := some (1 / 100)
  custom_loan_volume_bins : List ℤ := []
  urls_limit : Option ℕ := none
  randomize_url_order : Bool := false
  seed : Option ℤ := some 42
deriving DecidableEq, Repr

/-- A `ScraperConfig()` built entirely from defaults. -/
def defaultConfig : ScraperConfig := {}

/-- Python truthiness of the `config.custom_ltv_granularity` value used by
the guard `if config.custom_ltv_granularity:` — `None`, `0` and `0.0` are
falsy, every other float is truthy. -/
def granularityTruthy : Option ℚ → Bool
  | none => false
  | some g => decide (g ≠ 0)

/-- The loan-volume axis (src/mortgage_scraper/segment.py, lines 47-51):
the custom bins verbatim when non-empty (Python truthiness of a list),
otherwise the default bins. -/
def loan_volume_bins (config : ScraperConfig) : List ℚ :=
  if config.custom_loan_volume_bins ≠ [] then
    config.custom_loan_volume_bins.map (fun v => (v : ℚ))
  else
    DEFAULT_LOAN_VOLUME_BINS

/-- The LTV axis (src/mortgage_scraper/segment.py, lines 53-55):
`np.arange(0.5, 1.0, 0.01)` by default, replaced by
`np.arange(0.5, 1.0, config.custom_ltv_granularity)` when the configured
granularity is truthy. -/
def ltv_bins (config : ScraperConfig) : List ℚ :=
  if granularityTruthy config.custom_ltv_granularity then
    np_arange (1 / 2) 1 (config.custom_ltv_granularity.getD 0)
  else
    np_arange (1 / 2) 1 (1 / 100)

/-- `itertools.product(xs, ys)`: all pairs, outer loop over `xs`. -/
def itertools_product {α β : Type} (xs : List α) (ys : List β) :
    List (α × β) :=
  xs.flatMap (fun x => ys.map (fun y => (x, y)))

/-- `asset_value_bins` (src/mortgage_scraper/segment.py, lines 60-62):
`[vol / ltv for (ltv, vol) in itertools.product(ltv_bins, loan_volume_bins)]`. -/
def asset_value_bins (config : ScraperConfig) : List ℚ :=
  (itertools_product (ltv_bins config) (loan_volume_bins config)).map
    (fun p => p.2 / p.1)

/-- `generate_segments` (src/mortgage_scraper/segment.py, lines 30-70).  The
two nested `for` loops accumulating into `segments` via `append` are
translated as left folds appending one constructed segment at a time. -/
def generate_segments (config : ScraperConfig)
    (period : Option String := none) : List MortgageMarketSegment :=
  (loan_volume_bins config).foldl
    (fun segs loan_amount =>
      (asset_value_bins config).foldl
        (fun segs asset_value =>
          segs ++ [MortgageMarketSegment.create asset_value loan_amount period])
        segs)
    []

/-- Python `int()` applied to a number: truncation toward zero. -/
def pyInt (q : ℚ) : ℤ :=
  q.num.tdiv (q.den : ℤ)

/-- Python slicing `l[:limit]` with an `Optional[int]` limit: `l[:None]` is
the whole list, `l[:n]` the first `n` elements (the specification restricts
`urls_limit` to non-negative values). -/
def pySliceTo {α : Type} (limit : Option ℕ) (l : List α) : List α :=
  match limit with
  | none => l
  | some n => l.take n

namespace SBABScraper

/-- `SBABScraper.get_scrape_url` (src/mortgage_scraper/sbab_banken_scraper.py,
lines 41-49): formats the pricing URL from the two parameters, converting
each to `int`. -/
def get_scrape_url (loan_amount estate_value : ℚ) : String :=
  "https://www.sbab.se/www-open-rest-api" ++ "/resources/rantor"
    ++ "/bolan/hamtaprisdiffaderantor/" ++ toString (pyInt estate_value)
    ++ "/" ++ toString (pyInt loan_amount)

/-- The segment sequence of `SBABScraper.generate_scrape_urls` before the
`urls_limit` slice (src/mortgage_scraper/sbab_banken_scraper.py, lines
53-61): `generate_segments(config)` and, when `config.randomize_url_order`
is set, an in-place `random.Random(seed).shuffle`.  `shuffle` is the seeded
permutation `random.Random(seed).shuffle` of the Python standard library,
passed in as an uninterpreted deterministic function of the seed and the
list; `externalRand` is the value of the `random.randint(1, 1000)` call, the
only non-configuration input, used solely when `config.seed` is `None`. -/
def untruncated_segments
    (shuffle : ℤ → List MortgageMarketSegment → List MortgageMarketSegment)
    (config : ScraperConfig) (externalRand : ℤ) :
    List MortgageMarketSegment :=
  let segments := generate_segments config none
  if config.randomize_url_order then
    shuffle (config.seed.getD externalRand) segments
  else
    segments

/-- `SBABScraper.generate_scrape_urls` (src/mortgage_scraper/
sbab_banken_scraper.py, lines 51-64): the possibly shuffled segment list is
sliced to `config.urls_limit` and each remaining segment is mapped to its
scrape URL; returns the `(urls, segments)` pair. -/
def generate_scrape_urls
    (shuffle : ℤ → List MortgageMarketSegment → List MortgageMarketSegment)
    (config : ScraperConfig) (externalRand : ℤ) :
    List String × List MortgageMarketSegment :=
  let segments := pySliceTo config.urls_limit
    (untruncated_segments shuffle config externalRand)
  (segments.map (fun s => get_scrape_url s.loan_amount s.asset_value),
   segments)

end SBABScraper

/-- The configuration of the specification's example literal scenario:
granularity `0.5` and custom loan-volume bins `[100_000]`. -/
def exampleConfig : ScraperConfig :=
  { custom_ltv_granularity := some (1 / 2),
    custom_loan_volume_bins := [100000] }

/-- The example configuration with randomised URL order and seed `7`. -/
def randomizedConfig : ScraperConfig :=
  { custom_ltv_granularity := some (1 / 2),
    custom_loan_volume_bins := [100000],
    randomize_url_order := true,
    seed := some 7 }

/-- The example configuration with `urls_limit = 3`. -/
def limitedConfig : ScraperConfig :=
  { custom_ltv_granularity := some (1 / 2),
    custom_loan_volume_bins := [100000],
    urls_limit := some 3 }

/-- The single segment of the example scenario. -/
def exampleSegment : MortgageMarketSegment :=
  { asset_value := 200000, loan_amount := 100000, period := none,
    ltv := some (1 / 2) }

/-! ### Helper lemmas about the embedding -/

lemma foldl_append_singleton {α β : Type} (f : α → β) (xs : List α)
    (acc : List β) :
    xs.foldl (fun l a => l ++ [f a]) acc = acc ++ xs.map f := by
  induction xs generalizing acc with
  | nil => simp
  | cons x xs ih => simp [List.foldl_cons, ih]

lemma foldl_append_flatMap {α β : Type} (g : α → List β) (xs : List α)
    (acc : List β) :
    xs.foldl (fun l a => l ++ g a) acc = acc ++ xs.flatMap g := by
  induction xs generalizing acc with
  | nil => simp
  | cons x xs ih => simp [List.foldl_cons, ih]

/-- The nested accumulation loops of `generate_segments` compute the flat
map of the loan-volume axis against the asset-value list. -/
lemma generate_segments_eq (config : ScraperConfig) (period : Option String) :
    generate_segments config period =
      (loan_volume_bins config).flatMap (fun loan_amount =>
        (asset_value_bins config).map (fun asset_value =>
          MortgageMarketSegment.create asset_value loan_amount period)) := by
  unfold generate_segments
  simp only [foldl_append_singleton]
  rw [foldl_append_flatMap]
  simp

/-- Membership characterisation of the generator's output. -/
lemma mem_generate_segments {config : ScraperConfig} {period : Option String}
    {s : MortgageMarketSegment} :
    s ∈ generate_segments config period ↔
      ∃ loan_amount ∈ loan_volume_bins config,
        ∃ asset_value ∈ asset_value_bins config,
          s = MortgageMarketSegment.create asset_value loan_amount period := by
  rw [generate_segments_eq]
  simp only [List.mem_flatMap, List.mem_map]
  constructor
  · rintro ⟨loan, hloan, asset, hasset, rfl⟩
    exact ⟨loan, hloan, asset, hasset, rfl⟩
  · rintro ⟨loan, hloan, asset, hasset, rfl⟩
    exact ⟨loan, hloan, asset, hasset, rfl⟩

lemma flatMap_map_length {α β γ : Type} (xs : List α) (ys : List β)
    (f : α → β → γ) :
    (xs.flatMap (fun x => ys.map (f x))).length = xs.length * ys.length := by
  induction xs with
  | nil => simp
  | cons x xs ih => simp [ih, Nat.succ_mul, Nat.add_comm]

lemma itertools_product_length {α β : Type} (xs : List α) (ys : List β) :
    (itertools_product xs ys).length = xs.length * ys.length :=
  flatMap_map_length xs ys (fun x y => (x, y))

lemma ratCeil_eq_ceil (q : ℚ) : ratCeil q = ⌈q⌉ := by
  have hfl : Rat.floor (-q) = ⌊-q⌋ := rfl
  rw [ratCeil, hfl, Int.floor_neg, neg_neg]

/-- Every element of `np.arange(start, stop, step)` with a positive step
lies in the half-open interval `[start, stop)`. -/
lemma np_arange_bounds {start stop step x : ℚ} (hstep : 0 < step)
    (hx : x ∈ np_arange start stop step) : start ≤ x ∧ x < stop := by
  unfold np_arange at hx
  rw [ratCeil_eq_ceil] at hx
  rcases List.mem_map.mp hx with ⟨i, hi, rfl⟩
  rw [List.mem_range] at hi
  constructor
  · have h0 : (0 : ℚ) ≤ (i : ℚ) * step :=
      mul_nonneg (by positivity) hstep.le
    linarith
  · have hi' : ((i : ℤ)) < ⌈(stop - start) / step⌉ := Int.lt_toNat.mp hi
    have hq : ((i : ℚ)) < (stop - start) / step := by
      have := Int.lt_ceil.mp hi'
      push_cast at this ⊢
      exact this
    have := (lt_div_iff₀ hstep).mp hq
    linarith

/-- Membership constructor for `np.arange`. -/
lemma mem_np_arange (start stop step : ℚ) (i : ℕ)
    (h : (i : ℤ) < ⌈(stop - start) / step⌉) :
    start + (i : ℚ) * step ∈ np_arange start stop step := by
  unfold np_arange
  rw [ratCeil_eq_ceil]
  exact List.mem_map.mpr ⟨i, List.mem_range.mpr (Int.lt_toNat.mpr h), rfl⟩

lemma mem_itertools_product {α β : Type} {xs : List α} {ys : List β}
    {p : α × β} :
    p ∈ itertools_product xs ys ↔ p.1 ∈ xs ∧ p.2 ∈ ys := by
  cases p with
  | mk a b =>
    simp only [itertools_product, List.mem_flatMap, List.mem_map,
      Prod.mk.injEq]
    constructor
    · rintro ⟨x, hx, y, hy, rfl, rfl⟩
      exact ⟨hx, hy⟩
    · rintro ⟨ha, hb⟩
      exact ⟨a, ha, b, hb, rfl, rfl⟩

lemma ratCeil_natCast (n : ℕ) : ratCeil ((n : ℚ)) = n := by
  rw [ratCeil_eq_ceil]
  exact_mod_cast Int.ceil_natCast n

/-- Evaluation rule for `np.arange` when the length quotient is a whole
number. -/
lemma np_arange_eval {start stop step : ℚ} (n : ℕ)
    (h : (stop - start) / step = (n : ℚ)) :
    np_arange start stop step
      = (List.range n).map (fun (i : ℕ) => start + (i : ℚ) * step) := by
  unfold np_arange
  rw [h, ratCeil_natCast, Int.toNat_natCast]

lemma np_arange_length_eval {start stop step : ℚ} (n : ℕ)
    (h : (stop - start) / step = (n : ℚ)) :
    (np_arange start stop step).length = n := by
  rw [np_arange_eval n h, List.length_map, List.length_range]

lemma np_arange_nil {start stop step : ℚ}
    (h : (stop - start) / step ≤ 0) :
    np_arange start stop step = [] := by
  unfold np_arange
  have hceil : ⌈(stop - start) / step⌉ ≤ 0 :=
    Int.ceil_le.mpr (by exact_mod_cast h)
  rw [ratCeil_eq_ceil, Int.toNat_of_nonpos hceil]
  rfl

/-! ### Concrete evaluations of the axes -/

lemma loan_volume_bins_default :
    loan_volume_bins defaultConfig = DEFAULT_LOAN_VOLUME_BINS := by
  simp [loan_volume_bins, defaultConfig]

lemma ltv_bins_default :
    ltv_bins defaultConfig = np_arange (1 / 2) 1 (1 / 100) := by
  simp [ltv_bins, defaultConfig, granularityTruthy]

lemma default_bins_length : DEFAULT_LOAN_VOLUME_BINS.length = 89 := by
  rw [DEFAULT_LOAN_VOLUME_BINS]
  rw [List.length_append, List.length_append]
  rw [np_arange_length_eval 39 (by norm_num),
    np_arange_length_eval 30 (by norm_num),
    np_arange_length_eval 20 (by norm_num)]

lemma ltv_bins_default_length : (ltv_bins defaultConfig).length = 50 := by
  rw [ltv_bins_default, np_arange_length_eval 50 (by norm_num)]

lemma default_bins_lower :
    ∀ v ∈ DEFAULT_LOAN_VOLUME_BINS, (50000 : ℚ) ≤ v := by
  intro v hv
  rw [DEFAULT_LOAN_VOLUME_BINS] at hv
  rcases List.mem_append.mp hv with hv' | hv'
  · rcases List.mem_append.mp hv' with h | h
    · exact (np_arange_bounds (by norm_num) h).1
    · linarith [(np_arange_bounds (by norm_num) h).1]
  · linarith [(np_arange_bounds (by norm_num) hv').1]

lemma ltv_bins_default_bounds :
    ∀ l ∈ ltv_bins defaultConfig, (0 : ℚ) < l ∧ l ≤ 1 := by
  intro l hl
  rw [ltv_bins_default] at hl
  have h := np_arange_bounds (by norm_num) hl
  exact ⟨by linarith [h.1], by linarith [h.2]⟩

lemma mem_default_bins_50000 :
    (50000 : ℚ) ∈ DEFAULT_LOAN_VOLUME_BINS := by
  rw [DEFAULT_LOAN_VOLUME_BINS]
  refine List.mem_append.mpr (Or.inl (List.mem_append.mpr (Or.inl ?_)))
  have h := mem_np_arange 50000 2000000 50000 0
    (by rw [show ((2000000 : ℚ) - 50000) / 50000 = ((39 : ℤ) : ℚ) by norm_num,
          Int.ceil_intCast]; norm_num)
  simpa using h

lemma mem_default_bins_9750000 :
    (9750000 : ℚ) ∈ DEFAULT_LOAN_VOLUME_BINS := by
  rw [DEFAULT_LOAN_VOLUME_BINS]
  refine List.mem_append.mpr (Or.inr ?_)
  have h := mem_np_arange 5000000 10000000 250000 19
    (by rw [show ((10000000 : ℚ) - 5000000) / 250000 = ((20 : ℤ) : ℚ) by norm_num,
          Int.ceil_intCast]; norm_num)
  have he : (5000000 : ℚ) + (19 : ℕ) * 250000 = 9750000 := by norm_num
  rwa [he] at h

lemma mem_ltv_bins_default_half :
    (1 / 2 : ℚ) ∈ ltv_bins defaultConfig := by
  rw [ltv_bins_default]
  have h := mem_np_arange (1 / 2) 1 (1 / 100) 0
    (by rw [show ((1 : ℚ) - 1 / 2) / (1 / 100) = ((50 : ℤ) : ℚ) by norm_num,
          Int.ceil_intCast]; norm_num)
  simpa using h

lemma mem_asset_bins_default_100000 :
    (100000 : ℚ) ∈ asset_value_bins defaultConfig := by
  rw [asset_value_bins]
  refine List.mem_map.mpr ⟨(1 / 2, 50000), ?_, by norm_num⟩
  exact mem_itertools_product.mpr
    ⟨mem_ltv_bins_default_half, loan_volume_bins_default ▸ mem_default_bins_50000⟩

/-! ### Evaluation of the example scenario -/

lemma loan_volume_bins_example :
    loan_volume_bins exampleConfig = [100000] := by
  simp [loan_volume_bins, exampleConfig]

lemma ltv_bins_example : ltv_bins exampleConfig = [1 / 2] := by
  rw [ltv_bins]
  rw [show granularityTruthy exampleConfig.custom_ltv_granularity = true by
    simp [exampleConfig, granularityTruthy]]
  rw [if_pos rfl]
  rw [show exampleConfig.custom_ltv_granularity.getD 0 = 1 / 2 from rfl]
  rw [np_arange_eval 1 (by norm_num)]
  simp [List.range_succ]

lemma asset_value_bins_example :
    asset_value_bins exampleConfig = [200000] := by
  rw [asset_value_bins, ltv_bins_example, loan_volume_bins_example]
  simp [itertools_product]
  norm_num

lemma generate_segments_example_eval :
    generate_segments exampleConfig none =
      [{ asset_value := 200000, loan_amount := 100000, period := none,
         ltv := some (1 / 2) }] := by
  rw [generate_segments_eq, loan_volume_bins_example, asset_value_bins_example]
  simp [MortgageMarketSegment.create]
  norm_num

/-! ### Claims -/

/-- Claim C2 (confirmed): with granularity `0.5` and custom loan-volume bins
`[100_000]`, `generate_segments` returns exactly one segment, with asset
value `200_000`, loan amount `100_000`, no period, and ltv `0.5`. -/
theorem generate_segments_example_scenario :
    generate_segments exampleConfig none =
      [{ asset_value := 200000, loan_amount := 100000, period := none,
         ltv := some (1 / 2) }] :=
  generate_segments_example_eval

/-- Claim C3 (confirmed): for every configuration, `generate_segments`
returns exactly the Cartesian product of the loan-volume axis against the
complete derived asset-value list (one quotient `vol / ltv` per pair of the
LTV axis × volume axis product), enumerated with the outer loop over the
loan-volume axis and the inner loop over the asset-value list, in
construction order. -/
theorem generate_segments_cross_product (config : ScraperConfig)
    (period : Option String) :
    generate_segments config period =
      (loan_volume_bins config).flatMap (fun loan_amount =>
        ((itertools_product (ltv_bins config) (loan_volume_bins config)).map
            (fun p => p.2 / p.1)).map
          (fun asset_value =>
            MortgageMarketSegment.create asset_value loan_amount period)) :=
  generate_segments_eq config period

/-- Claim C4 (confirmed): for the default configuration, the number of
segments returned by `generate_segments` (namely 89 · 50 · 89 = 396050) is
at least 1 and strictly less than 500000. -/
theorem generate_segments_default_count :
    1 ≤ (generate_segments defaultConfig none).length ∧
    (generate_segments defaultConfig none).length < 500000 := by
  have hlen : (generate_segments defaultConfig none).length
      = (loan_volume_bins defaultConfig).length
        * (asset_value_bins defaultConfig).length := by
    rw [generate_segments_eq, flatMap_map_length]
  have h1 : (loan_volume_bins defaultConfig).length = 89 := by
    rw [loan_volume_bins_default, default_bins_length]
  have h2 : (asset_value_bins defaultConfig).length = 4450 := by
    rw [asset_value_bins, List.length_map, itertools_product_length,
      ltv_bins_default_length, loan_volume_bins_default, default_bins_length]
  rw [hlen, h1, h2]
  norm_num

/-- Claim C5 (confirmed): every segment produced by `generate_segments`
carries `ltv = loan_amount / asset_value` exactly (in exact rational
arithmetic, so in particular within any positive floating-point tolerance),
and segments are immutable values, so the ratio cannot drift. -/
theorem generate_segments_ltv_ratio (config : ScraperConfig)
    (period : Option String) (s : MortgageMarketSegment)
    (hs : s ∈ generate_segments config period) :
    s.ltv = some (s.loan_amount / s.asset_value) := by
  rcases mem_generate_segments.mp hs with ⟨loan, _, asset, _, rfl⟩
  rfl

/-- Witness for `generate_segments_ltv_ratio` at the example scenario's
single segment. -/
theorem generate_segments_ltv_ratio_witness :
    exampleSegment.ltv
      = some (exampleSegment.loan_amount / exampleSegment.asset_value) :=
  generate_segments_ltv_ratio exampleConfig none _
    (by rw [generate_segments_example_eval]; exact List.mem_singleton.mpr rfl)

end MortgageScraper

namespace MortgageScraper

lemma granularityTruthy_of_ne {g : ℚ} (h : g ≠ 0) :
    granularityTruthy (some g) = true := by
  simp [granularityTruthy, h]

lemma ltv_bins_of_granularity {c : ScraperConfig} {g : ℚ}
    (hc : c.custom_ltv_granularity = some g) (h : g ≠ 0) :
    ltv_bins c = np_arange (1 / 2) 1 g := by
  rw [ltv_bins, hc, granularityTruthy_of_ne h]
  simp

lemma ltv_bins_of_falsy {c : ScraperConfig}
    (hc : c.custom_ltv_granularity = some 0 ∨ c.custom_ltv_granularity = none) :
    ltv_bins c = np_arange (1 / 2) 1 (1 / 100) := by
  rcases hc with hc | hc <;>
    simp [ltv_bins, hc, granularityTruthy]

lemma flatMap_const_nil {α β : Type} (xs : List α) :
    xs.flatMap (fun _ => ([] : List β)) = [] := by
  induction xs <;> simp_all

lemma generate_segments_congr {c₁ c₂ : ScraperConfig}
    (hvol : loan_volume_bins c₁ = loan_volume_bins c₂)
    (hltv : ltv_bins c₁ = ltv_bins c₂) (p : Option String) :
    generate_segments c₁ p = generate_segments c₂ p := by
  rw [generate_segments_eq, generate_segments_eq,
    asset_value_bins, asset_value_bins, hvol, hltv]

/-- Claim C1 counterexample: `generate_segments` does not fail on the
configurations the specification says it must reject.  With
`ltv_granularity = -0.1` it succeeds and returns the empty list; with
`ltv_granularity = 0` the Python truthiness test makes it fall back to the
default `0.01` axis and return a non-empty segment list, exactly as for an
unset granularity. -/
theorem generate_segments_invalid_config_counterexample :
    generate_segments
        { custom_ltv_granularity := some (-1 / 10),
          custom_loan_volume_bins := [100000] } none = [] ∧
    generate_segments
        { custom_ltv_granularity := some 0,
          custom_loan_volume_bins := [100000] } none
      = generate_segments
          { custom_ltv_granularity := some (1 / 100),
            custom_loan_volume_bins := [100000] } none ∧
    generate_segments
        { custom_ltv_granularity := some 0,
          custom_loan_volume_bins := [100000] } none ≠ [] := by
  refine ⟨?_, ?_, ?_⟩
  · rw [generate_segments_eq]
    have hltv : ltv_bins
        { custom_ltv_granularity := some (-1 / 10),
          custom_loan_volume_bins := [100000] } = [] := by
      rw [ltv_bins_of_granularity rfl (by norm_num)]
      exact np_arange_nil (by norm_num)
    have hassets : asset_value_bins
        { custom_ltv_granularity := some (-1 / 10),
          custom_loan_volume_bins := [100000] } = [] := by
      rw [asset_value_bins, hltv]
      simp [itertools_product]
    rw [hassets]
    simp [flatMap_const_nil]
  · apply generate_segments_congr
    · simp [loan_volume_bins]
    · rw [ltv_bins_of_falsy (Or.inl rfl),
        ltv_bins_of_granularity rfl (by norm_num)]
  · have hlen : (generate_segments
        { custom_ltv_granularity := some 0,
          custom_loan_volume_bins := [100000] } none).length = 50 := by
      rw [generate_segments_eq, flatMap_map_length]
      have h1 : (loan_volume_bins
          { custom_ltv_granularity := some 0,
            custom_loan_volume_bins := [100000] }).length = 1 := by
        simp [loan_volume_bins]
      have h2 : (asset_value_bins
          { custom_ltv_granularity := some 0,
            custom_loan_volume_bins := [100000] }).length = 50 := by
        rw [asset_value_bins, List.length_map, itertools_product_length,
          ltv_bins_of_falsy (Or.inl rfl), np_arange_length_eval 50 (by norm_num),
          h1]
      rw [h1, h2]
    intro hnil
    rw [hnil] at hlen
    simp at hlen

/-- Claim C1 (corrected): `generate_segments` performs no configuration
validation and never raises `InvalidConfiguration`.  A granularity of `0`
is falsy in Python and silently falls back to the default `0.01` axis
(identical to an unset granularity), and a negative granularity makes the
LTV axis empty so the call succeeds with an empty segment list. -/
theorem generate_segments_skips_validation (c : ScraperConfig)
    (p : Option String) (g : ℚ) :
    (g < 0 →
      generate_segments { c with custom_ltv_granularity := some g } p = []) ∧
    generate_segments { c with custom_ltv_granularity := some 0 } p
      = generate_segments { c with custom_ltv_granularity := none } p := by
  constructor
  · intro hneg
    rw [generate_segments_eq]
    have hltv : ltv_bins { c with custom_ltv_granularity := some g } = [] := by
      rw [ltv_bins_of_granularity rfl (ne_of_lt hneg)]
      refine np_arange_nil ?_
      apply div_nonpos_of_nonneg_of_nonpos <;> [norm_num; exact hneg.le]
    have hassets :
        asset_value_bins { c with custom_ltv_granularity := some g } = [] := by
      rw [asset_value_bins, hltv]
      simp [itertools_product]
    rw [hassets]
    simp [flatMap_const_nil]
  · apply generate_segments_congr
    · simp [loan_volume_bins]
    · rw [ltv_bins_of_falsy (Or.inl rfl), ltv_bins_of_falsy (Or.inr rfl)]

/-- Witness for `generate_segments_skips_validation` at `g = -1` over the
default configuration. -/
theorem generate_segments_skips_validation_witness :
    generate_segments
        { defaultConfig with custom_ltv_granularity := some (-1) } none = [] ∧
    generate_segments
        { defaultConfig with custom_ltv_granularity := some 0 } none
      = generate_segments
          { defaultConfig with custom_ltv_granularity := none } none :=
  ⟨(generate_segments_skips_validation defaultConfig none (-1)).1 (by norm_num),
   (generate_segments_skips_validation defaultConfig none 0).2⟩

/-- Claim C6 (confirmed): with randomised URL order and a fixed seed `S`,
the whole URL/segment generation of the SBAB scraper is independent of the
ambient randomness (the `random.randint` fallback draw), hence two
invocations with identical configuration produce identical ordered output,
for every deterministic seeded shuffle function. -/
theorem generate_scrape_urls_seed_deterministic
    (shuffle : ℤ → List MortgageMarketSegment → List MortgageMarketSegment)
    (config : ScraperConfig) (S r1 r2 : ℤ)
    (hseed : config.seed = some S)
    (hrand : config.randomize_url_order = true) :
    SBABScraper.generate_scrape_urls shuffle config r1
      = SBABScraper.generate_scrape_urls shuffle config r2 := by
  unfold SBABScraper.generate_scrape_urls SBABScraper.untruncated_segments
  rw [hseed, hrand]
  rfl

/-- Witness for `generate_scrape_urls_seed_deterministic` with the reverse
permutation as shuffle, seed `7`, and two distinct ambient draws. -/
theorem generate_scrape_urls_seed_deterministic_witness :
    SBABScraper.generate_scrape_urls (fun _ l => l.reverse)
        randomizedConfig 1
      = SBABScraper.generate_scrape_urls (fun _ l => l.reverse)
          randomizedConfig 2 :=
  generate_scrape_urls_seed_deterministic (fun _ l => l.reverse)
    randomizedConfig 7 1 2 rfl rfl

/-- Claim C7 (confirmed): with `urls_limit = N`, the segment sequence
returned by the SBAB scraper is exactly the first `N` elements (a prefix)
of the untruncated, possibly shuffled, sequence, and its length is
`min N total_count` for every length-preserving shuffle. -/
theorem generate_scrape_urls_prefix_truncation
    (shuffle : ℤ → List MortgageMarketSegment → List MortgageMarketSegment)
    (config : ScraperConfig) (r : ℤ) (N : ℕ)
    (hshuffle : ∀ seed l, (shuffle seed l).length = l.length)
    (hlim : config.urls_limit = some N) :
    (SBABScraper.generate_scrape_urls shuffle config r).2
        = (SBABScraper.untruncated_segments shuffle config r).take N ∧
    (SBABScraper.generate_scrape_urls shuffle config r).2.length
        = min N (generate_segments config none).length := by
  have huntrunc : (SBABScraper.untruncated_segments shuffle config r).length
      = (generate_segments config none).length := by
    rw [SBABScraper.untruncated_segments]
    split
    · exact hshuffle _ _
    · rfl
  constructor
  · simp [SBABScraper.generate_scrape_urls, pySliceTo, hlim]
  · simp only [SBABScraper.generate_scrape_urls, pySliceTo, hlim]
    rw [List.length_take, huntrunc]

/-- Witness for `generate_scrape_urls_prefix_truncation` with the reverse
permutation as shuffle and limit `3` over the example configuration. -/
theorem generate_scrape_urls_prefix_truncation_witness :
    (SBABScraper.generate_scrape_urls (fun _ l => l.reverse)
        limitedConfig 5).2
      = (SBABScraper.untruncated_segments (fun _ l => l.reverse)
          limitedConfig 5).take 3 ∧
    (SBABScraper.generate_scrape_urls (fun _ l => l.reverse)
        limitedConfig 5).2.length
      = min 3 (generate_segments limitedConfig none).length :=
  generate_scrape_urls_prefix_truncation (fun _ l => l.reverse)
    limitedConfig 5 3 (fun _ l => by simp) rfl

/-- Claim C8 (confirmed): under the default configuration every produced
segment has `loan_amount ≥ 50000` and `asset_value ≥ 50000`, the common
floor `min` of the default loan-volume axis. -/
theorem generate_segments_default_floor (s : MortgageMarketSegment)
    (hs : s ∈ generate_segments defaultConfig none) :
    50000 ≤ s.loan_amount ∧ 50000 ≤ s.asset_value := by
  rcases mem_generate_segments.mp hs with ⟨loan, hloan, asset, hasset, rfl⟩
  rw [loan_volume_bins_default] at hloan
  rw [asset_value_bins] at hasset
  rcases List.mem_map.mp hasset with ⟨p, hp, rfl⟩
  rcases mem_itertools_product.mp hp with ⟨hl, hv⟩
  rw [loan_volume_bins_default] at hv
  have h1 := default_bins_lower _ hloan
  have h2 := default_bins_lower _ hv
  have h3 := ltv_bins_default_bounds _ hl
  simp only [MortgageMarketSegment.create]
  refine ⟨h1, ?_⟩
  rw [le_div_iff₀ h3.1]
  nlinarith [h3.2, h2]

/-- Witness for `generate_segments_default_floor` at the first default
segment (loan `50000`, asset value `50000 / 0.5 = 100000`). -/
theorem generate_segments_default_floor_witness :
    50000 ≤ (MortgageMarketSegment.create 100000 50000 none).loan_amount ∧
    50000 ≤ (MortgageMarketSegment.create 100000 50000 none).asset_value :=
  generate_segments_default_floor _ (by
    rw [generate_segments_eq]
    refine List.mem_flatMap.mpr ⟨50000, ?_, ?_⟩
    · rw [loan_volume_bins_default]
      exact mem_default_bins_50000
    · exact List.mem_map.mpr ⟨100000, mem_asset_bins_default_100000, rfl⟩)

/-- Claim C9 (confirmed): under the default configuration some produced
segment has an `ltv` ratio outside the sampled interval `[0.5, 1.0)` — in
particular greater than `1` (here `9750000 / 100000 = 97.5`), because the
cross product pairs each loan amount with asset values derived from every
other loan volume. -/
theorem generate_segments_default_ltv_above_one :
    ∃ s ∈ generate_segments defaultConfig none,
      ∃ l : ℚ, s.ltv = some l ∧ 1 < l := by
  refine ⟨MortgageMarketSegment.create 100000 9750000 none, ?_,
    9750000 / 100000, rfl, by norm_num⟩
  rw [generate_segments_eq]
  refine List.mem_flatMap.mpr ⟨9750000, ?_, ?_⟩
  · rw [loan_volume_bins_default]
    exact mem_default_bins_9750000
  · exact List.mem_map.mpr ⟨100000, mem_asset_bins_default_100000, rfl⟩

/-- Claim C10 (confirmed): the dataclass constructor performs an unguarded
division by `asset_value`: with `asset_value = 0` it fails with Python's
division-by-zero error, and otherwise it succeeds with `ltv` set to
`loan_amount / asset_value`, ignoring any caller-supplied `ltv`. -/
theorem construct_zero_division (asset_value loan_amount : ℚ)
    (period : Option String) (ltvArg : Option ℚ) :
    (asset_value = 0 →
      MortgageMarketSegment.construct asset_value loan_amount period ltvArg
        = Except.error PyError.zeroDivisionError) ∧
    (asset_value ≠ 0 →
      MortgageMarketSegment.construct asset_value loan_amount period ltvArg
        = Except.ok
            { asset_value := asset_value, loan_amount := loan_amount,
              period := period,
              ltv := some (loan_amount / asset_value) }) := by
  constructor <;> intro h <;> simp [MortgageMarketSegment.construct, h]

/-- Witness for `construct_zero_division` on both branches, each with a
caller-supplied `ltv` that the constructor discards. -/
theorem construct_zero_division_witness :
    MortgageMarketSegment.construct 0 5 none (some 3)
        = Except.error PyError.zeroDivisionError ∧
    MortgageMarketSegment.construct 2 6 none (some 9)
        = Except.ok
            { asset_value := 2, loan_amount := 6, period := none,
              ltv := some ((6 : ℚ) / 2) } :=
  ⟨(construct_zero_division 0 5 none (some 3)).1 rfl,
   (construct_zero_division 2 6 none (some 9)).2 (by norm_num)⟩

end MortgageScraper
